import Mathlib

/-!
Shallow embedding of the daycare-management backend (child, activity,
finance and message services) and proofs about its access-control,
referential-integrity and reporting behaviour.

Each controller function is translated from the JavaScript source into an
executable Lean function over explicit stores (lists of records), with
MongoDB queries modelled as list filters and document updates as record
merges.  Machine-level concerns (HTTP codes, population of references)
are dropped; the decision logic and the data written are kept verbatim.
-/

/-! ## Generic list helpers (modelling Mongo / JS array operations) -/

/-- Idempotent set-add, the semantics of Mongo `$addToSet`. -/
def addToSet {α : Type} [DecidableEq α] (xs : List α) (x : α) : List α :=
  if x ∈ xs then xs else xs ++ [x]

/-- First-occurrence key list, the grouping-key order of an aggregation
`$group` stage made deterministic. -/
def firstKeys {α κ : Type} [DecidableEq κ] (key : α → κ) (l : List α) : List κ :=
  l.foldl (fun ks a => if key a ∈ ks then ks else ks ++ [key a]) []

/-- Insert into a list sorted by the boolean comparator `le`. -/
def insertBy {α : Type} (le : α → α → Bool) (a : α) : List α → List α
  | [] => [a]
  | b :: rest => if le a b then a :: b :: rest else b :: insertBy le a rest

/-- Insertion sort by a boolean comparator, the model of `.sort` /
aggregation `$sort` stages. -/
def sortBy {α : Type} (le : α → α → Bool) : List α → List α
  | [] => []
  | a :: rest => insertBy le a (sortBy le rest)

theorem mem_insertBy {α : Type} (le : α → α → Bool) (a x : α) :
    ∀ l : List α, x ∈ insertBy le a l ↔ x = a ∨ x ∈ l := by
  intro l
  induction l with
  | nil => simp [insertBy]
  | cons b rest ih =>
      by_cases h : le a b = true
      · simp [insertBy, h]
      · simp only [insertBy, h, Bool.false_eq_true, if_false, List.mem_cons, ih]
        tauto

theorem mem_sortBy {α : Type} (le : α → α → Bool) (x : α) :
    ∀ l : List α, x ∈ sortBy le l ↔ x ∈ l := by
  intro l
  induction l with
  | nil => simp [sortBy]
  | cons a rest ih => simp [sortBy, mem_insertBy, ih]

theorem pairwise_insertBy {α : Type} (le : α → α → Bool)
    (htot : ∀ a b, le a b = false → le b a = true)
    (htrans : ∀ a b c, le a b = true → le b c = true → le a c = true) (a : α) :
    ∀ l : List α, l.Pairwise (fun x y => le x y = true) →
      (insertBy le a l).Pairwise (fun x y => le x y = true) := by
  intro l
  induction l with
  | nil => intro _; simp [insertBy]
  | cons b rest ih =>
      intro hp
      rcases List.pairwise_cons.mp hp with ⟨hb, hrest⟩
      by_cases h : le a b = true
      · have heq : insertBy le a (b :: rest) = a :: b :: rest := by
          simp [insertBy, h]
        rw [heq]
        refine List.pairwise_cons.mpr ⟨?_, hp⟩
        intro y hy
        rcases List.mem_cons.mp hy with rfl | hy
        · exact h
        · exact htrans a b y h (hb y hy)
      · have hba : le b a = true := htot a b (by simpa using h)
        have heq : insertBy le a (b :: rest) = b :: insertBy le a rest := by
          simp [insertBy, h]
        rw [heq]
        refine List.pairwise_cons.mpr ⟨?_, ih hrest⟩
        intro y hy
        rcases (mem_insertBy le a y rest).mp hy with rfl | hy
        · exact hba
        · exact hb y hy

theorem pairwise_sortBy {α : Type} (le : α → α → Bool)
    (htot : ∀ a b, le a b = false → le b a = true)
    (htrans : ∀ a b c, le a b = true → le b c = true → le a c = true) :
    ∀ l : List α, (sortBy le l).Pairwise (fun x y => le x y = true) := by
  intro l
  induction l with
  | nil => simp [sortBy]
  | cons a rest ih => exact pairwise_insertBy le htot htrans a _ ih

/-- Case-insensitive substring test on character lists: does `pat` occur
as a contiguous run inside `hay`?  This models the `$regex` +
`$options: 'i'` match on a literal search string. -/
def containsSub (pat : List Char) : List Char → Bool
  | [] => pat.isEmpty
  | c :: rest => pat.isPrefixOf (c :: rest) || containsSub pat rest

/-- Case-insensitive substring match on strings. -/
def containsCI (hay pat : String) : Bool :=
  containsSub pat.toLower.toList hay.toLower.toList

/-- Lexicographic comparison of character lists (true when `a ≤ b`). -/
def charsLe : List Char → List Char → Bool
  | [], _ => true
  | _ :: _, [] => false
  | a :: as, b :: bs => if a = b then charsLe as bs else decide (a < b)

/-- String order used to model `.sort({ field: 1 })` on string keys. -/
def strLe (a b : String) : Bool :=
  charsLe a.toList b.toList

/-- Two-digit zero padding, as produced by `$dateToString` `%m`/`%d`. -/
def pad2 (n : Nat) : String :=
  if n < 10 then "0" ++ toString n else toString n

/-! ## Core identity model

Document ids are natural numbers; `Role` is the closed role enum used
across the backend (`User` schema / auth middleware). -/

abbrev OId := Nat

inductive Role : Type
  | admin | teacher | parent | staff | finance
deriving DecidableEq, Repr

/-- The authenticated actor resolved by the `protect` middleware:
id, role, active flag and (for parents) the owned-children set. -/
structure Actor where
  uid : OId
  role : Role
  isActive : Bool
  children : List OId
deriving DecidableEq, Repr

/-! ## Child service (`childController.js`, `models/Child.js`) -/

/-- A persisted `Child` document (fields relevant to the verified
operations; reference fields hold ids, as in the store). -/
structure Child where
  cid : OId
  firstName : String
  lastName : String
  parents : List OId
  teacher : OId
  classroom : String
  schedule : String
  notes : String
  specialNeeds : String
  dietaryRestrictions : List String
  emergencyContacts : List String
  medicalInfo : String
  monthlyFee : Int
  feeStatus : String
  isActive : Bool
deriving DecidableEq, Repr

/-- The persistent store visible to the child service: the `users` and
`children` collections, plus the id the store will assign to the next
created document. -/
structure ChildStore where
  users : List Actor
  children : List Child
  nextId : OId
deriving Repr

/-- Payload of a child-create request, after the route validators
(`routes/children` express-validator chain) have passed. -/
structure ChildCreatePayload where
  firstName : String
  lastName : String
  parents : List OId
  teacher : OId
  classroom : String
  monthlyFee : Int
deriving DecidableEq, Repr

/-- The child document built by `Child.create(childData)`. -/
def mkChild (p : ChildCreatePayload) (cid : OId) : Child :=
  { cid := cid
    firstName := p.firstName
    lastName := p.lastName
    parents := p.parents
    teacher := p.teacher
    classroom := p.classroom
    schedule := ""
    notes := ""
    specialNeeds := ""
    dietaryRestrictions := []
    emergencyContacts := []
    medicalInfo := ""
    monthlyFee := p.monthlyFee
    feeStatus := "pending"
    isActive := true }

inductive CreateChildResult : Type
  | ok (cid : OId)
  | validationError
deriving DecidableEq, Repr

/-- `createChild`: persists the child, then runs
`User.updateMany({_id: {$in: child.parents}}, {$addToSet: {children: child._id}})`.
No check that the parent ids resolve to existing active parent-role
actors is performed anywhere on this path (the route validators only
check id shape). -/
def createChild (store : ChildStore) (p : ChildCreatePayload) :
    CreateChildResult × ChildStore :=
  let child := mkChild p store.nextId
  let users' :=
    if p.parents.length > 0 then
      store.users.map fun u =>
        if u.uid ∈ p.parents then { u with children := addToSet u.children child.cid }
        else u
    else store.users
  (CreateChildResult.ok child.cid,
   { store with
       users := users'
       children := store.children ++ [child]
       nextId := store.nextId + 1 })

/-- Caller-supplied filters and pagination of `GET /api/children`. -/
structure ChildQuery where
  classroom : Option String
  isActive : Option Bool
  search : Option String
  page : Nat
  limit : Nat
deriving Repr

/-- The Mongo filter object built by `getChildren`, as a predicate: the
role-based scope condition and each caller-supplied condition are
conjuncts of one filter document. -/
def childMatches (actor : Actor) (q : ChildQuery) (c : Child) : Bool :=
  (match actor.role with
   | Role.parent => actor.uid ∈ c.parents
   | Role.teacher => c.teacher = actor.uid
   | _ => true) &&
  (match q.classroom with
   | some cls => c.classroom = cls
   | none => true) &&
  (match q.isActive with
   | some b => c.isActive = b
   | none => true) &&
  (match q.search with
   | some s => containsCI c.firstName s || containsCI c.lastName s
   | none => true)

/-- Result shape of the paginated child listing. -/
structure ChildListResult where
  data : List Child
  total : Nat
  page : Nat
  pages : Nat
deriving Repr

/-- `getChildren`: role-scoped filter + caller filters, sorted by
`firstName` ascending, paginated with `skip = (page-1)*limit`. -/
def getChildren (store : ChildStore) (actor : Actor) (q : ChildQuery) :
    ChildListResult :=
  let filtered := store.children.filter (childMatches actor q)
  let sorted := sortBy (fun a b => strLe a.firstName b.firstName) filtered
  let skip := (q.page - 1) * q.limit
  { data := (sorted.drop skip).take q.limit
    total := filtered.length
    page := q.page
    pages := (filtered.length + q.limit - 1) / q.limit }

/-- Payload of a child-update request; `some` marks a field present in
`req.body` (`undefined` is `none`). -/
structure ChildUpdatePayload where
  firstName : Option String
  lastName : Option String
  parents : Option (List OId)
  teacher : Option OId
  classroom : Option String
  schedule : Option String
  notes : Option String
  specialNeeds : Option String
  dietaryRestrictions : Option (List String)
  emergencyContacts : Option (List String)
  medicalInfo : Option String
  monthlyFee : Option Int
  feeStatus : Option String
  isActive : Option Bool
deriving DecidableEq, Repr

/-- The payload with no field present. -/
def emptyChildUpdate : ChildUpdatePayload :=
  { firstName := none, lastName := none, parents := none, teacher := none
    classroom := none, schedule := none, notes := none, specialNeeds := none
    dietaryRestrictions := none, emergencyContacts := none, medicalInfo := none
    monthlyFee := none, feeStatus := none, isActive := none }

/-- Merge every present payload field into the stored child — the
admin branch of `updateChild` (`fieldsToUpdate = req.body`). -/
def applyAllChildFields (c : Child) (p : ChildUpdatePayload) : Child :=
  { c with
      firstName := p.firstName.getD c.firstName
      lastName := p.lastName.getD c.lastName
      parents := p.parents.getD c.parents
      teacher := p.teacher.getD c.teacher
      classroom := p.classroom.getD c.classroom
      schedule := p.schedule.getD c.schedule
      notes := p.notes.getD c.notes
      specialNeeds := p.specialNeeds.getD c.specialNeeds
      dietaryRestrictions := p.dietaryRestrictions.getD c.dietaryRestrictions
      emergencyContacts := p.emergencyContacts.getD c.emergencyContacts
      medicalInfo := p.medicalInfo.getD c.medicalInfo
      monthlyFee := p.monthlyFee.getD c.monthlyFee
      feeStatus := p.feeStatus.getD c.feeStatus
      isActive := p.isActive.getD c.isActive }

/-- The teacher branch: `allowedFields = ['classroom', 'schedule',
'notes', 'specialNeeds', 'dietaryRestrictions']`; every other requested
field is dropped. -/
def applyTeacherChildFields (c : Child) (p : ChildUpdatePayload) : Child :=
  { c with
      classroom := p.classroom.getD c.classroom
      schedule := p.schedule.getD c.schedule
      notes := p.notes.getD c.notes
      specialNeeds := p.specialNeeds.getD c.specialNeeds
      dietaryRestrictions := p.dietaryRestrictions.getD c.dietaryRestrictions }

/-- The parent branch: `allowedFields = ['emergencyContacts',
'medicalInfo', 'dietaryRestrictions', 'specialNeeds']`. -/
def applyParentChildFields (c : Child) (p : ChildUpdatePayload) : Child :=
  { c with
      emergencyContacts := p.emergencyContacts.getD c.emergencyContacts
      medicalInfo := p.medicalInfo.getD c.medicalInfo
      dietaryRestrictions := p.dietaryRestrictions.getD c.dietaryRestrictions
      specialNeeds := p.specialNeeds.getD c.specialNeeds }

inductive UpdateChildResult : Type
  | ok (updated : Child)
  | notFound
  | forbidden
deriving DecidableEq, Repr

/-- Document lookup by id (`findById`). -/
def findChild (children : List Child) (id : OId) : Option Child :=
  children.find? (fun c => c.cid = id)

/-- `updateChild`: find, role-based access check, per-role field
projection, then `findByIdAndUpdate` with the projected field set.
Roles other than admin/teacher/parent fall through with an empty
`fieldsToUpdate` object (the update succeeds and changes nothing). -/
def updateChild (children : List Child) (actor : Actor) (id : OId)
    (p : ChildUpdatePayload) : UpdateChildResult × List Child :=
  match findChild children id with
  | none => (UpdateChildResult.notFound, children)
  | some c =>
      if actor.role = Role.parent ∧ actor.uid ∉ c.parents then
        (UpdateChildResult.forbidden, children)
      else if actor.role = Role.teacher ∧ c.teacher ≠ actor.uid then
        (UpdateChildResult.forbidden, children)
      else
        let updated :=
          match actor.role with
          | Role.admin => applyAllChildFields c p
          | Role.teacher => applyTeacherChildFields c p
          | Role.parent => applyParentChildFields c p
          | _ => c
        (UpdateChildResult.ok updated,
         children.map fun d => if d.cid = id then updated else d)

/-! ## Activity service (`activityController`, `models/Activity.js`) -/

/-- A persisted `Activity` document (fields used by participant
management). -/
structure Activity where
  aid : OId
  teacher : OId
  participants : List OId
  maxParticipants : Nat
  status : String
deriving DecidableEq, Repr

inductive AddParticipantResult : Type
  | ok
  | activityNotFound
  | childNotFoundOrInactive
  | alreadyParticipating
  | maxReached
deriving DecidableEq, Repr

/-- `addParticipant`: looks up the activity and the child, then checks —
in this order — child existence/activity, duplicate membership, and
capacity (`participants.length >= maxParticipants`), before pushing the
child id. -/
def addParticipant (act : Activity) (children : List Child) (childId : OId) :
    AddParticipantResult × Activity :=
  match findChild children childId with
  | none => (AddParticipantResult.childNotFoundOrInactive, act)
  | some child =>
      if ¬ child.isActive then
        (AddParticipantResult.childNotFoundOrInactive, act)
      else if childId ∈ act.participants then
        (AddParticipantResult.alreadyParticipating, act)
      else if act.participants.length ≥ act.maxParticipants then
        (AddParticipantResult.maxReached, act)
      else
        (AddParticipantResult.ok, { act with participants := act.participants ++ [childId] })

/-! ## Finance service (`financeController`, `routes/finance.js`) -/

inductive TxType : Type
  | income | expense
deriving DecidableEq, Repr

inductive TxStatus : Type
  | pending | approved | rejected
deriving DecidableEq, Repr

/-- A calendar date (the transaction's `date` value, which drives the
report's period bucketing). -/
structure Date where
  year : Nat
  month : Nat
  day : Nat
deriving DecidableEq, Repr

/-- Days since 0000-03-01 in the proleptic Gregorian calendar (civil
day-count algorithm), used to order dates and derive weekday / week of
year the way the aggregation date operators do. -/
def daysFromCivil (dt : Date) : Nat :=
  let y := if dt.month ≤ 2 then dt.year - 1 else dt.year
  let era := y / 400
  let yoe := y % 400
  let mp := (dt.month + 9) % 12
  let doy := (153 * mp + 2) / 5 + dt.day - 1
  let doe := yoe * 365 + yoe / 4 - yoe / 100 + doy
  era * 146097 + doe

/-- Weekday with Sunday = 0 (1970-01-01, day 719468, was a Thursday). -/
def weekday (dt : Date) : Nat :=
  (daysFromCivil dt + 3) % 7

/-- 1-based day of year. -/
def dayOfYear (dt : Date) : Nat :=
  daysFromCivil dt - daysFromCivil { year := dt.year, month := 1, day := 1 } + 1

/-- `%U`: week of year (00–53), weeks beginning on Sunday. -/
def weekOfYear (dt : Date) : Nat :=
  (dayOfYear dt + 6 - weekday dt) / 7

/-- Date comparison for the `$gte`/`$lte` range filter. -/
def dateLe (a b : Date) : Bool :=
  daysFromCivil a ≤ daysFromCivil b

/-- Four-digit zero padding (`%Y`). -/
def pad4 (n : Nat) : String :=
  if n < 10 then "000" ++ toString n
  else if n < 100 then "00" ++ toString n
  else if n < 1000 then "0" ++ toString n
  else toString n

/-- Report granularity selected by the `groupBy` query parameter;
anything other than day/week/year falls to the month format. -/
inductive ReportGroupBy : Type
  | day | week | month | year
deriving DecidableEq, Repr

/-- The `$dateToString` period key for the chosen format
(`%Y-%m-%d`, `%Y-%U`, `%Y`, default `%Y-%m`). -/
def periodString (g : ReportGroupBy) (dt : Date) : String :=
  match g with
  | ReportGroupBy.day => pad4 dt.year ++ "-" ++ pad2 dt.month ++ "-" ++ pad2 dt.day
  | ReportGroupBy.week => pad4 dt.year ++ "-" ++ pad2 (weekOfYear dt)
  | ReportGroupBy.year => pad4 dt.year
  | ReportGroupBy.month => pad4 dt.year ++ "-" ++ pad2 dt.month

/-- A persisted `Finance` transaction document. -/
structure Tx where
  tid : OId
  ttype : TxType
  category : String
  amount : ℚ
  description : String
  date : Date
  status : TxStatus
  paymentMethod : String
  tags : List String
  relatedChild : Option OId
  relatedParent : Option OId
  relatedEmployee : Option OId
  createdBy : OId
  approvedBy : Option OId
  approvedAt : Option Nat
  approvalNotes : String
  createdAt : Nat
deriving DecidableEq, Repr

/-- Payload of `PUT /api/finance/:id` after route validation; `some`
marks a field present in `req.body`.  `createdBy` and `approvedBy` can
be supplied by the caller — the controller deletes them before the
write — and `approvedAt`, a schema field, is not deleted. -/
structure TxUpdatePayload where
  ttype : Option TxType
  category : Option String
  amount : Option ℚ
  description : Option String
  date : Option Date
  status : Option TxStatus
  paymentMethod : Option String
  tags : Option (List String)
  relatedChild : Option OId
  relatedParent : Option OId
  relatedEmployee : Option OId
  createdBy : Option OId
  approvedBy : Option OId
  approvedAt : Option Nat
deriving DecidableEq, Repr

/-- The document after `findByIdAndUpdate(id, updateFields)` where
`updateFields = { ...req.body }` minus `createdBy` and `approvedBy`. -/
def applyTxUpdate (t : Tx) (p : TxUpdatePayload) : Tx :=
  { t with
      ttype := p.ttype.getD t.ttype
      category := p.category.getD t.category
      amount := p.amount.getD t.amount
      description := p.description.getD t.description
      date := p.date.getD t.date
      status := p.status.getD t.status
      paymentMethod := p.paymentMethod.getD t.paymentMethod
      tags := p.tags.getD t.tags
      relatedChild := match p.relatedChild with
        | some v => some v
        | none => t.relatedChild
      relatedParent := match p.relatedParent with
        | some v => some v
        | none => t.relatedParent
      relatedEmployee := match p.relatedEmployee with
        | some v => some v
        | none => t.relatedEmployee
      approvedAt := match p.approvedAt with
        | some v => some v
        | none => t.approvedAt }

inductive UpdateTxResult : Type
  | ok (updated : Tx)
  | notFound
  | immutable
deriving DecidableEq, Repr

/-- Transaction lookup by id (`findById`). -/
def findTx (txs : List Tx) (id : OId) : Option Tx :=
  txs.find? (fun t => t.tid = id)

/-- `updateTransaction`: find, approved-immutability gate
(`status === 'approved' && role !== 'admin'`), strip
`createdBy`/`approvedBy`, write the rest. -/
def updateTransaction (txs : List Tx) (actor : Actor) (id : OId)
    (p : TxUpdatePayload) : UpdateTxResult × List Tx :=
  match findTx txs id with
  | none => (UpdateTxResult.notFound, txs)
  | some t =>
      if t.status = TxStatus.approved ∧ actor.role ≠ Role.admin then
        (UpdateTxResult.immutable, txs)
      else
        let updated := applyTxUpdate t p
        (UpdateTxResult.ok updated,
         txs.map fun u => if u.tid = id then updated else u)

/-! ### Financial report (`getFinancialReport`) -/

/-- Query of `GET /api/finance/report`. -/
structure ReportQuery where
  startDate : Option Date
  endDate : Option Date
  groupBy : ReportGroupBy
deriving Repr

/-- The `$match` stage: `status: 'approved'` plus the optional
inclusive date range on the transaction's `date` value. -/
def matchStage (q : ReportQuery) (t : Tx) : Bool :=
  t.status = TxStatus.approved &&
  (match q.startDate with
   | some s => dateLe s t.date
   | none => true) &&
  (match q.endDate with
   | some e => dateLe t.date e
   | none => true)

/-- Rows of the first `$group` stage, keyed by (period, type). -/
structure PeriodTypeRow where
  period : String
  rtype : TxType
  total : ℚ
  count : Nat
deriving DecidableEq, Repr

/-- First `$group`: sum amount and count per (period, type). -/
def groupPeriodType (g : ReportGroupBy) (txs : List Tx) : List PeriodTypeRow :=
  (firstKeys (fun t => (periodString g t.date, t.ttype)) txs).map fun k =>
    let grp := txs.filter fun t =>
      periodString g t.date = k.1 && t.ttype = k.2
    { period := k.1
      rtype := k.2
      total := (grp.map (fun t => t.amount)).sum
      count := grp.length }

/-- Rows of the second `$group` + `$addFields` stages, one per period. -/
structure PeriodEntry where
  period : String
  income : ℚ
  expenses : ℚ
  incomeCount : Nat
  expenseCount : Nat
  netIncome : ℚ
deriving DecidableEq, Repr

/-- Second `$group`: regroup the (period, type) rows by period,
splitting totals via `$cond` on the type; `netIncome` is filled by the
following `$addFields` stage. -/
def groupByPeriod (rows : List PeriodTypeRow) : List PeriodEntry :=
  (firstKeys (fun r => r.period) rows).map fun p =>
    let grp := rows.filter fun r => r.period = p
    { period := p
      income := (grp.map fun r =>
        if r.rtype = TxType.income then r.total else 0).sum
      expenses := (grp.map fun r =>
        if r.rtype = TxType.expense then r.total else 0).sum
      incomeCount := (grp.map fun r =>
        if r.rtype = TxType.income then r.count else 0).sum
      expenseCount := (grp.map fun r =>
        if r.rtype = TxType.expense then r.count else 0).sum
      netIncome := 0 }

/-- The `$addFields` stage: `netIncome = income - expenses`. -/
def addNetIncome (entries : List PeriodEntry) : List PeriodEntry :=
  entries.map fun e => { e with netIncome := e.income - e.expenses }

/-- Rows of the category-breakdown aggregation, keyed by
(category, type). -/
structure CategoryRow where
  category : String
  ctype : TxType
  total : ℚ
  count : Nat
deriving DecidableEq, Repr

/-- Category breakdown: sum + count per (category, type), sorted by
total descending (`$sort: { total: -1 }`). -/
def categoryBreakdownOf (txs : List Tx) : List CategoryRow :=
  let rows := (firstKeys (fun t => (t.category, t.ttype)) txs).map fun k =>
    let grp := txs.filter fun t => t.category = k.1 && t.ttype = k.2
    { category := k.1
      ctype := k.2
      total := (grp.map (fun t => t.amount)).sum
      count := grp.length }
  sortBy (fun a b => decide (b.total ≤ a.total)) rows

/-- The report response body. -/
structure ReportResult where
  periodReport : List PeriodEntry
  categoryBreakdown : List CategoryRow
  totalIncome : ℚ
  totalExpenses : ℚ
  netIncome : ℚ
deriving Repr

/-- The report pipeline applied to an already-filtered record set. -/
def buildReport (filtered : List Tx) (q : ReportQuery) : ReportResult :=
  let report := sortBy (fun a b => strLe a.period b.period)
    (addNetIncome (groupByPeriod (groupPeriodType q.groupBy filtered)))
  { periodReport := report
    categoryBreakdown := categoryBreakdownOf filtered
    totalIncome := (report.map (fun e => e.income)).sum
    totalExpenses := (report.map (fun e => e.expenses)).sum
    netIncome := (report.map (fun e => e.netIncome)).sum }

/-- `getFinancialReport`: `$match` on approved status + optional date
range, then the grouping pipeline and summary reduction. -/
def getFinancialReport (txs : List Tx) (q : ReportQuery) : ReportResult :=
  buildReport (txs.filter (matchStage q)) q

/-! ## Message service (`messageController`, `models/Message.js`) -/

/-- A persisted `Message` document. -/
structure Message where
  mid : OId
  sender : OId
  recipient : OId
  child : OId
  subject : String
  content : String
  isRead : Bool
  readAt : Option Nat
  createdAt : Nat
deriving DecidableEq, Repr

/-- Message lookup by id (`findById`). -/
def findMsg (msgs : List Message) (id : OId) : Option Message :=
  msgs.find? (fun m => m.mid = id)

/-- The schema's `pre('save')` hook: set `readAt` only when `isRead` was
modified on this save, is now true, and `readAt` is still unset. -/
def messagePreSave (orig m : Message) (now : Nat) : Message :=
  if orig.isRead ≠ m.isRead ∧ m.isRead ∧ m.readAt = none then
    { m with readAt := some now }
  else m

inductive MarkReadResult : Type
  | ok
  | notFound
  | forbidden
deriving DecidableEq, Repr

/-- `markAsRead`: find, recipient check, then set `isRead = true` and
`readAt = new Date()` unconditionally and save (which runs the
`pre('save')` hook on the mutated document). -/
def markAsRead (msgs : List Message) (actorId : OId) (id : OId) (now : Nat) :
    MarkReadResult × List Message :=
  match findMsg msgs id with
  | none => (MarkReadResult.notFound, msgs)
  | some m =>
      if m.recipient ≠ actorId then
        (MarkReadResult.forbidden, msgs)
      else
        let m' := messagePreSave m { m with isRead := true, readAt := some now } now
        (MarkReadResult.ok, msgs.map fun u => if u.mid = id then m' else u)

/-- `getMessageById`: find and return the message to the requesting
actor — no sender/recipient check — marking it read as a side effect
only when the actor is the recipient and it is still unread. -/
def getMessageById (msgs : List Message) (actorId : OId) (id : OId) (now : Nat) :
    Option Message × List Message :=
  match findMsg msgs id with
  | none => (none, msgs)
  | some m =>
      if actorId = m.recipient ∧ ¬ m.isRead then
        let m' := messagePreSave m { m with isRead := true, readAt := some now } now
        (some m', msgs.map fun u => if u.mid = id then m' else u)
      else
        (some m, msgs)

/-- `getMessagesByChild`: every message whose `child` field equals the
requested child id, newest first, paginated — no restriction to the
requesting actor. -/
def getMessagesByChild (msgs : List Message) (childId : OId)
    (page limit : Nat) : List Message :=
  let found := msgs.filter fun m => m.child = childId
  let sorted := sortBy (fun a b => decide (b.createdAt ≤ a.createdAt)) found
  (sorted.drop ((page - 1) * limit)).take limit

/-! ## Auxiliary lemmas -/

theorem self_mem_addToSet {α : Type} [DecidableEq α] (xs : List α) (x : α) :
    x ∈ addToSet xs x := by
  unfold addToSet
  split
  · assumption
  · simp

theorem filter_idem {α : Type} (pr : α → Bool) (l : List α) :
    (l.filter pr).filter pr = l.filter pr := by
  induction l with
  | nil => rfl
  | cons a rest ih =>
      by_cases h : pr a = true
      · simp [List.filter_cons, h, ih]
      · simp [List.filter_cons, h, ih]

/-! ## C1: child creation and parent linkage -/

/-- Store and payload exhibiting a child-create request whose parent id
resolves to no actor at all. -/
def c1Store : ChildStore := { users := [], children := [], nextId := 1 }

def c1Payload : ChildCreatePayload :=
  { firstName := "Amy", lastName := "Kay", parents := [7], teacher := 2
    classroom := "A", monthlyFee := 100 }

/-- C1 counterexample: with an empty user collection (so parent id 7
resolves to no existing active parent-role actor), `createChild`
succeeds and persists the child instead of failing with
`ValidationError`, refuting the claim as stated. -/
theorem createChild_dangling_parent_persists :
    c1Store.users = [] ∧ (7 : OId) ∈ c1Payload.parents ∧
    (createChild c1Store c1Payload).1 = CreateChildResult.ok 1 ∧
    (createChild c1Store c1Payload).2.children ≠ [] := by
  refine ⟨rfl, by decide, rfl, by decide⟩

/-- C1 (amended): `createChild` performs no parent-resolution check and
never fails: the child is always persisted, and the new child's id is
added (idempotent set-add) to the child-set of exactly those stored
users whose id occurs in the payload's parents list; unresolved parent
ids are silently left dangling. -/
theorem createChild_links_existing_parents :
    ∀ (store : ChildStore) (p : ChildCreatePayload),
      (createChild store p).1 = CreateChildResult.ok store.nextId ∧
      mkChild p store.nextId ∈ (createChild store p).2.children ∧
      ∀ u ∈ (createChild store p).2.users,
        u.uid ∈ p.parents → store.nextId ∈ u.children := by
  intro store p
  refine ⟨rfl, by simp [createChild], ?_⟩
  intro u hu hpar
  unfold createChild at hu
  simp only at hu
  by_cases hlen : p.parents.length > 0
  · rw [if_pos hlen] at hu
    rcases List.mem_map.mp hu with ⟨u0, _, rfl⟩
    by_cases hm : u0.uid ∈ p.parents
    · simp only [hm, if_true]
      exact self_mem_addToSet u0.children store.nextId
    · rw [if_neg hm] at hpar
      exact absurd hpar hm
  · rw [if_neg hlen] at hu
    have : p.parents = [] := List.length_eq_zero.mp (Nat.eq_zero_of_not_pos hlen)
    rw [this] at hpar
    exact absurd hpar (List.not_mem_nil _)

/-- Store holding one active parent-role actor with id 7. -/
def c1wStore : ChildStore :=
  { users := [{ uid := 7, role := Role.parent, isActive := true, children := [] }]
    children := [], nextId := 1 }

/-- Witness for C1's amended theorem at a concrete store: the create
succeeds and the stored parent actor 7 now holds the new child id 1. -/
theorem createChild_links_witness :
    (createChild c1wStore c1Payload).1 = CreateChildResult.ok 1 ∧
    (1 : OId) ∈ (Actor.mk 7 Role.parent true [1]).children :=
  ⟨(createChild_links_existing_parents c1wStore c1Payload).1,
   (createChild_links_existing_parents c1wStore c1Payload).2.2
     (Actor.mk 7 Role.parent true [1]) (by decide) (by decide)⟩
/-! ## C2: activity participant capacity -/

/-- An active child with id 5 (minimal fields). -/
def childFive : Child :=
  { cid := 5, firstName := "Ben", lastName := "Lee", parents := [7], teacher := 2
    classroom := "A", schedule := "", notes := "", specialNeeds := ""
    dietaryRestrictions := [], emergencyContacts := [], medicalInfo := ""
    monthlyFee := 0, feeStatus := "pending", isActive := true }

/-- A full activity (one participant, capacity one) whose sole
participant is child 5. -/
def c2Act : Activity :=
  { aid := 1, teacher := 2, participants := [5], maxParticipants := 1
    status := "planned" }

/-- C2 counterexample: with the participant count already equal to
`maxParticipants`, adding a child who is already a participant returns
`DuplicateParticipant`, not `CapacityExceeded` — the duplicate check
runs before the capacity check — refuting the claim's second half as
stated. -/
theorem addParticipant_duplicate_beats_capacity :
    c2Act.participants.length = c2Act.maxParticipants ∧
    (addParticipant c2Act [childFive] 5).1 = AddParticipantResult.alreadyParticipating ∧
    AddParticipantResult.alreadyParticipating ≠ AddParticipantResult.maxReached := by
  refine ⟨rfl, by decide, by decide⟩

/-- C2 (amended): the capacity invariant is preserved by every
add-participant call; when the participant count already equals
`maxParticipants` the call leaves the participant set unchanged and
does not succeed, and it returns `CapacityExceeded` precisely when the
child resolves, is active and is not already a participant (otherwise
the not-found/inactive or duplicate error takes precedence). -/
theorem addParticipant_capacity :
    ∀ (act : Activity) (children : List Child) (childId : OId),
      act.participants.length ≤ act.maxParticipants →
      (addParticipant act children childId).2.participants.length ≤ act.maxParticipants
      ∧ (act.participants.length = act.maxParticipants →
          (addParticipant act children childId).2 = act
          ∧ (addParticipant act children childId).1 ≠ AddParticipantResult.ok)
      ∧ (act.participants.length = act.maxParticipants →
          ∀ c, findChild children childId = some c → c.isActive →
            childId ∉ act.participants →
            (addParticipant act children childId).1 = AddParticipantResult.maxReached) := by
  intro act children childId hle
  cases hf : findChild children childId with
  | none =>
      have hres : addParticipant act children childId =
          (AddParticipantResult.childNotFoundOrInactive, act) := by
        simp [addParticipant, hf]
      rw [hres]
      exact ⟨hle, fun _ => ⟨rfl, fun h => nomatch h⟩, fun _ c hc => nomatch hc⟩
  | some child =>
      by_cases hact : child.isActive = true
      · by_cases hdup : childId ∈ act.participants
        · have hres : addParticipant act children childId =
              (AddParticipantResult.alreadyParticipating, act) := by
            simp [addParticipant, hf, hact, hdup]
          rw [hres]
          refine ⟨hle, fun _ => ⟨rfl, fun h => nomatch h⟩, ?_⟩
          intro _ c _ _ hnd
          exact absurd hdup hnd
        · by_cases hcap : act.participants.length ≥ act.maxParticipants
          · have hres : addParticipant act children childId =
                (AddParticipantResult.maxReached, act) := by
              simp [addParticipant, hf, hact, hdup, hcap]
            rw [hres]
            exact ⟨hle, fun _ => ⟨rfl, fun h => nomatch h⟩, fun _ _ _ _ _ => rfl⟩
          · have hres : addParticipant act children childId =
                (AddParticipantResult.ok,
                 { act with participants := act.participants ++ [childId] }) := by
              simp [addParticipant, hf, hact, hdup, hcap]
            rw [hres]
            have hlt : act.participants.length < act.maxParticipants :=
              Nat.lt_of_not_le (by simpa using hcap)
            refine ⟨by simpa using Nat.succ_le_of_lt hlt, ?_, ?_⟩
            · intro heq
              exact absurd (le_of_eq heq.symm) (by simpa using hcap)
            · intro heq _ _ _ _
              exact absurd (le_of_eq heq.symm) (by simpa using hcap)
      · have hres : addParticipant act children childId =
            (AddParticipantResult.childNotFoundOrInactive, act) := by
          simp [addParticipant, hf, hact]
        rw [hres]
        refine ⟨hle, fun _ => ⟨rfl, fun h => nomatch h⟩, ?_⟩
        intro _ c hc hca _
        cases hc
        exact absurd hca hact

/-- An activity at capacity whose participant is child 5, used to
witness the amended capacity theorem with a fresh, valid child 6. -/
def c2wAct : Activity :=
  { aid := 2, teacher := 2, participants := [5], maxParticipants := 1
    status := "planned" }

def childSix : Child :=
  { childFive with cid := 6, firstName := "Cam" }

/-- Witness for C2's amended theorem: adding the valid, active,
non-participating child 6 to the full activity returns
`CapacityExceeded` and leaves the activity unchanged. -/
theorem addParticipant_capacity_witness :
    (addParticipant c2wAct [childFive, childSix] 6).1 = AddParticipantResult.maxReached
    ∧ (addParticipant c2wAct [childFive, childSix] 6).2 = c2wAct :=
  ⟨(addParticipant_capacity c2wAct [childFive, childSix] 6 (by decide)).2.2 rfl
     childSix (by decide) (by decide) (by decide),
   ((addParticipant_capacity c2wAct [childFive, childSix] 6 (by decide)).2.1 rfl).1⟩

/-! ## C3: approved transactions are immutable to non-admin update -/

/-- C3: if the stored transaction is `approved` and the actor is not an
admin, `updateTransaction` returns `Immutable` and the transaction
collection is returned byte-for-byte unchanged — nothing is written on
the error path. -/
theorem updateTransaction_approved_immutable :
    ∀ (txs : List Tx) (actor : Actor) (id : OId) (p : TxUpdatePayload) (t : Tx),
      findTx txs id = some t →
      t.status = TxStatus.approved →
      actor.role ≠ Role.admin →
      updateTransaction txs actor id p = (UpdateTxResult.immutable, txs) := by
  intro txs actor id p t hfind hst hrole
  simp [updateTransaction, hfind, hst, hrole]

/-- An approved income transaction with id 1. -/
def tx1 : Tx :=
  { tid := 1, ttype := TxType.income, category := "tuition_fees", amount := 500
    description := "January tuition", date := { year := 2024, month := 1, day := 15 }
    status := TxStatus.approved, paymentMethod := "cash", tags := []
    relatedChild := some 5, relatedParent := none, relatedEmployee := none
    createdBy := 3, approvedBy := some 9, approvedAt := some 100
    approvalNotes := "", createdAt := 50 }

/-- A finance-role (non-admin) actor. -/
def finActor : Actor := { uid := 4, role := Role.finance, isActive := true, children := [] }

/-- The update payload with no field present. -/
def emptyTxUpdate : TxUpdatePayload :=
  { ttype := none, category := none, amount := none, description := none
    date := none, status := none, paymentMethod := none, tags := none
    relatedChild := none, relatedParent := none, relatedEmployee := none
    createdBy := none, approvedBy := none, approvedAt := none }

/-- Witness for C3: a finance-role update of the approved transaction 1
returns `Immutable` with the store untouched. -/
theorem updateTransaction_immutable_witness :
    updateTransaction [tx1] finActor 1 emptyTxUpdate = (UpdateTxResult.immutable, [tx1]) :=
  updateTransaction_approved_immutable [tx1] finActor 1 emptyTxUpdate tx1 rfl rfl (by decide)

/-! ## C9: a finance actor can approve through the generic update -/

/-- C9: on a transaction whose status is not `approved`, the generic
update applies a payload-supplied `status` — a finance-role actor can
set a pending transaction to `approved` — and neither `approvedBy` nor
`approvedAt` is stamped in the process. -/
theorem updateTransaction_status_passthrough :
    ∀ (txs : List Tx) (actor : Actor) (id : OId) (p : TxUpdatePayload) (t : Tx),
      findTx txs id = some t →
      t.status ≠ TxStatus.approved →
      actor.role = Role.finance →
      p.status = some TxStatus.approved →
      p.approvedAt = none →
      (updateTransaction txs actor id p).1 = UpdateTxResult.ok (applyTxUpdate t p)
      ∧ (applyTxUpdate t p).status = TxStatus.approved
      ∧ (applyTxUpdate t p).approvedBy = t.approvedBy
      ∧ (applyTxUpdate t p).approvedAt = t.approvedAt := by
  intro txs actor id p t hfind hst _ hps hpa
  refine ⟨?_, ?_, rfl, ?_⟩
  · simp [updateTransaction, hfind, hst]
  · simp [applyTxUpdate, hps]
  · simp [applyTxUpdate, hpa]

/-- A pending expense transaction with id 2. -/
def tx2 : Tx :=
  { tid := 2, ttype := TxType.expense, category := "supplies", amount := 120
    description := "art supplies", date := { year := 2024, month := 2, day := 3 }
    status := TxStatus.pending, paymentMethod := "card", tags := []
    relatedChild := none, relatedParent := none, relatedEmployee := none
    createdBy := 3, approvedBy := none, approvedAt := none
    approvalNotes := "", createdAt := 60 }

/-- A payload that only sets `status: 'approved'`. -/
def approvePayload : TxUpdatePayload :=
  { emptyTxUpdate with status := some TxStatus.approved }

/-- Witness for C9: the finance actor flips pending transaction 2 to
`approved` through the generic update; `approvedBy`/`approvedAt` stay
unset. -/
theorem updateTransaction_status_witness :
    (updateTransaction [tx2] finActor 2 approvePayload).1 =
      UpdateTxResult.ok (applyTxUpdate tx2 approvePayload)
    ∧ (applyTxUpdate tx2 approvePayload).status = TxStatus.approved
    ∧ (applyTxUpdate tx2 approvePayload).approvedBy = none
    ∧ (applyTxUpdate tx2 approvePayload).approvedAt = none :=
  updateTransaction_status_passthrough [tx2] finActor 2 approvePayload tx2
    rfl (by decide) rfl rfl rfl

/-! ## C10: update never changes `createdBy` / `approvedBy` -/

/-- C10: after any `updateTransaction` call — by any actor, on any
outcome — every stored transaction keeps the `createdBy` and
`approvedBy` of a pre-existing record with the same id (the controller
deletes both fields from the payload before writing), while on a
successful update every other supplied payload field passes through. -/
theorem updateTransaction_strips_creator_approver :
    ∀ (txs : List Tx) (actor : Actor) (id : OId) (p : TxUpdatePayload),
      (∀ t' ∈ (updateTransaction txs actor id p).2,
        ∃ t, t ∈ txs ∧ t'.tid = t.tid ∧ t'.createdBy = t.createdBy
          ∧ t'.approvedBy = t.approvedBy)
      ∧ (∀ t, findTx txs id = some t →
          ¬(t.status = TxStatus.approved ∧ actor.role ≠ Role.admin) →
          (updateTransaction txs actor id p).1 = UpdateTxResult.ok (applyTxUpdate t p)
          ∧ (applyTxUpdate t p).category = p.category.getD t.category
          ∧ (applyTxUpdate t p).amount = p.amount.getD t.amount
          ∧ (applyTxUpdate t p).status = p.status.getD t.status
          ∧ (applyTxUpdate t p).description = p.description.getD t.description
          ∧ (applyTxUpdate t p).date = p.date.getD t.date) := by
  intro txs actor id p
  constructor
  · intro t' ht'
    cases hfind : findTx txs id with
    | none =>
        have hres : (updateTransaction txs actor id p).2 = txs := by
          simp [updateTransaction, hfind]
        rw [hres] at ht'
        exact ⟨t', ht', rfl, rfl, rfl⟩
    | some t =>
        have htmem : t ∈ txs := List.mem_of_find?_eq_some hfind
        by_cases hgate : t.status = TxStatus.approved ∧ actor.role ≠ Role.admin
        · have hres : (updateTransaction txs actor id p).2 = txs := by
            simp [updateTransaction, hfind, hgate]
          rw [hres] at ht'
          exact ⟨t', ht', rfl, rfl, rfl⟩
        · have hres : (updateTransaction txs actor id p).2 =
              txs.map (fun u => if u.tid = id then applyTxUpdate t p else u) := by
            simp [updateTransaction, hfind, hgate]
          rw [hres] at ht'
          rcases List.mem_map.mp ht' with ⟨u, hu, rfl⟩
          by_cases hid : u.tid = id
          · rw [if_pos hid]
            exact ⟨t, htmem, rfl, rfl, rfl⟩
          · rw [if_neg hid]
            exact ⟨u, hu, rfl, rfl, rfl⟩
  · intro t hfind hgate
    refine ⟨?_, rfl, rfl, rfl, rfl, rfl⟩
    simp [updateTransaction, hfind, hgate]

/-- A payload that tries to overwrite `createdBy`/`approvedBy` while
also changing the category. -/
def tamperPayload : TxUpdatePayload :=
  { emptyTxUpdate with
      createdBy := some 99
      approvedBy := some 98
      category := some "bribes" }

/-- Witness for C10: a concrete update supplying `createdBy := 99` and
`approvedBy := 98` succeeds, applies the category, and leaves both
protected fields exactly as stored. -/
theorem updateTransaction_strips_witness :
    (updateTransaction [tx2] finActor 2 tamperPayload).1 =
      UpdateTxResult.ok (applyTxUpdate tx2 tamperPayload)
    ∧ (applyTxUpdate tx2 tamperPayload).category = "bribes"
    ∧ (applyTxUpdate tx2 tamperPayload).createdBy = tx2.createdBy
    ∧ (applyTxUpdate tx2 tamperPayload).approvedBy = tx2.approvedBy := by
  have h := updateTransaction_strips_creator_approver [tx2] finActor 2 tamperPayload
  have h2 := h.2 tx2 rfl (by decide)
  obtain ⟨t, htm, _, hcb, hab⟩ :=
    h.1 (applyTxUpdate tx2 tamperPayload) (by decide)
  have ht : t = tx2 := List.mem_singleton.mp htm
  rw [ht] at hcb hab
  exact ⟨h2.1, h2.2.1, hcb, hab⟩

/-! ## C4: parent listing scope soundness -/

/-- C4: for a parent-role actor, every child returned by the listing —
under any combination of classroom / isActive / search filters and any
pagination — has the actor's id in its parents set: the scope conjunct
is part of the filter document and survives every caller filter. -/
theorem getChildren_parent_scope :
    ∀ (store : ChildStore) (actor : Actor) (q : ChildQuery),
      actor.role = Role.parent →
      ∀ c ∈ (getChildren store actor q).data, actor.uid ∈ c.parents := by
  intro store actor q hrole c hc
  simp only [getChildren] at hc
  have h2 := List.take_subset _ _ hc
  have h3 := List.drop_subset _ _ h2
  have h4 := (mem_sortBy _ _ _).mp h3
  have h5 := (List.mem_filter.mp h4).2
  simp only [childMatches, hrole, Bool.and_eq_true, decide_eq_true_eq] at h5
  exact h5.1.1.1

/-- A child whose only parent is actor 1. -/
def c4child : Child :=
  { cid := 1, firstName := "Zoe", lastName := "Quinn", parents := [1], teacher := 2
    classroom := "A", schedule := "", notes := "", specialNeeds := ""
    dietaryRestrictions := [], emergencyContacts := [], medicalInfo := ""
    monthlyFee := 10, feeStatus := "pending", isActive := true }

def c4store : ChildStore := { users := [], children := [c4child], nextId := 2 }

def c4actor : Actor := { uid := 1, role := Role.parent, isActive := true, children := [1] }

def c4query : ChildQuery :=
  { classroom := none, isActive := none, search := none, page := 1, limit := 10 }

/-- Witness for C4 at a concrete store: the listed child's parents set
contains the requesting parent's id. -/
theorem getChildren_parent_scope_witness :
    c4actor.role = Role.parent ∧ (1 : OId) ∈ c4child.parents :=
  ⟨rfl, getChildren_parent_scope c4store c4actor c4query rfl c4child (by decide)⟩

/-! ## C8: per-role field whitelist on child update -/

/-- C8: a parent's child update succeeds applying only
emergencyContacts / medicalInfo / dietaryRestrictions / specialNeeds —
every other requested field keeps its stored value — and a teacher's
update applies only classroom / schedule / notes / specialNeeds /
dietaryRestrictions, with all other fields silently dropped. -/
theorem updateChild_field_whitelist :
    ∀ (children : List Child) (actor : Actor) (id : OId) (p : ChildUpdatePayload)
      (c : Child),
      findChild children id = some c →
      ((actor.role = Role.parent → actor.uid ∈ c.parents →
          (updateChild children actor id p).1 =
            UpdateChildResult.ok (applyParentChildFields c p)
          ∧ (∀ d ∈ (updateChild children actor id p).2, d.cid = id →
              d.firstName = c.firstName ∧ d.lastName = c.lastName
              ∧ d.parents = c.parents ∧ d.teacher = c.teacher
              ∧ d.classroom = c.classroom ∧ d.schedule = c.schedule
              ∧ d.notes = c.notes ∧ d.monthlyFee = c.monthlyFee
              ∧ d.feeStatus = c.feeStatus ∧ d.isActive = c.isActive
              ∧ d.emergencyContacts = p.emergencyContacts.getD c.emergencyContacts
              ∧ d.medicalInfo = p.medicalInfo.getD c.medicalInfo
              ∧ d.dietaryRestrictions = p.dietaryRestrictions.getD c.dietaryRestrictions
              ∧ d.specialNeeds = p.specialNeeds.getD c.specialNeeds))
       ∧ (actor.role = Role.teacher → c.teacher = actor.uid →
          (updateChild children actor id p).1 =
            UpdateChildResult.ok (applyTeacherChildFields c p)
          ∧ (∀ d ∈ (updateChild children actor id p).2, d.cid = id →
              d.firstName = c.firstName ∧ d.lastName = c.lastName
              ∧ d.parents = c.parents ∧ d.teacher = c.teacher
              ∧ d.emergencyContacts = c.emergencyContacts
              ∧ d.medicalInfo = c.medicalInfo
              ∧ d.monthlyFee = c.monthlyFee ∧ d.feeStatus = c.feeStatus
              ∧ d.isActive = c.isActive
              ∧ d.classroom = p.classroom.getD c.classroom
              ∧ d.schedule = p.schedule.getD c.schedule
              ∧ d.notes = p.notes.getD c.notes
              ∧ d.specialNeeds = p.specialNeeds.getD c.specialNeeds
              ∧ d.dietaryRestrictions = p.dietaryRestrictions.getD c.dietaryRestrictions))) := by
  intro children actor id p c hfind
  constructor
  · intro hrole hown
    have hres : updateChild children actor id p =
        (UpdateChildResult.ok (applyParentChildFields c p),
         children.map fun d => if d.cid = id then applyParentChildFields c p else d) := by
      simp [updateChild, hfind, hrole, hown]
    rw [hres]
    refine ⟨rfl, ?_⟩
    intro d hd hdc
    rcases List.mem_map.mp hd with ⟨d0, _, rfl⟩
    by_cases hid0 : d0.cid = id
    · rw [if_pos hid0]
      exact ⟨rfl, rfl, rfl, rfl, rfl, rfl, rfl, rfl, rfl, rfl, rfl, rfl, rfl, rfl⟩
    · rw [if_neg hid0] at hdc
      exact absurd hdc hid0
  · intro hrole hteach
    have hres : updateChild children actor id p =
        (UpdateChildResult.ok (applyTeacherChildFields c p),
         children.map fun d => if d.cid = id then applyTeacherChildFields c p else d) := by
      simp [updateChild, hfind, hrole, hteach]
    rw [hres]
    refine ⟨rfl, ?_⟩
    intro d hd hdc
    rcases List.mem_map.mp hd with ⟨d0, _, rfl⟩
    by_cases hid0 : d0.cid = id
    · rw [if_pos hid0]
      exact ⟨rfl, rfl, rfl, rfl, rfl, rfl, rfl, rfl, rfl, rfl, rfl, rfl, rfl, rfl⟩
    · rw [if_neg hid0] at hdc
      exact absurd hdc hid0

/-- Stored child 3, owned by parent 1, taught by teacher 2. -/
def c8child : Child :=
  { cid := 3, firstName := "Original", lastName := "Name", parents := [1]
    teacher := 2, classroom := "B", schedule := "mon", notes := "n"
    specialNeeds := "", dietaryRestrictions := [], emergencyContacts := []
    medicalInfo := "none", monthlyFee := 50, feeStatus := "paid", isActive := true }

def c8actor : Actor := { uid := 1, role := Role.parent, isActive := true, children := [3] }

/-- A parent payload asking to change `firstName` (disallowed) and
`medicalInfo` (allowed). -/
def c8payload : ChildUpdatePayload :=
  { emptyChildUpdate with
      firstName := some "Hack"
      medicalInfo := some "peanut allergy" }

/-- Witness for C8: the concrete parent update succeeds, the requested
`firstName` change is dropped, and the allowed `medicalInfo` change is
applied. -/
theorem updateChild_whitelist_witness :
    (updateChild [c8child] c8actor 3 c8payload).1 =
      UpdateChildResult.ok (applyParentChildFields c8child c8payload)
    ∧ (applyParentChildFields c8child c8payload).firstName = "Original"
    ∧ (applyParentChildFields c8child c8payload).medicalInfo = "peanut allergy" := by
  have h := (updateChild_field_whitelist [c8child] c8actor 3 c8payload c8child rfl).1
    rfl (by decide)
  have hd := h.2 (applyParentChildFields c8child c8payload) (by decide) (by decide)
  exact ⟨h.1, hd.1, hd.2.2.2.2.2.2.2.2.2.2.2.1⟩

/-! ## C6: markRead idempotence on the read timestamp -/

/-- An unread message 10 from sender 1 to recipient 2 about child 9. -/
def msg0 : Message :=
  { mid := 10, sender := 1, recipient := 2, child := 9, subject := "s"
    content := "c", isRead := false, readAt := none, createdAt := 0 }

/-- C6: the controller's `markAsRead` assigns `readAt = new Date()`
unconditionally before saving, bypassing the schema hook's set-once
guard: the first call (at time 5) stores `readAt = 5`, and a second
call by the same recipient (at time 9) overwrites it to 9 — the read
timestamp is not set exactly once, refuting the claimed idempotence on
the code. -/
theorem markAsRead_overwrites_readAt :
    findMsg (markAsRead [msg0] 2 10 5).2 10 =
      some { msg0 with isRead := true, readAt := some 5 }
    ∧ findMsg (markAsRead (markAsRead [msg0] 2 10 5).2 2 10 9).2 10 =
      some { msg0 with isRead := true, readAt := some 9 }
    ∧ some (9 : Nat) ≠ some (5 : Nat) := by
  refine ⟨by decide, by decide, by decide⟩

/-! ## C7: message read scope -/

/-- C7 counterexample: actor 3 is neither sender 1 nor recipient 2 of
message 10, yet the single-message read returns the message to them —
the read path has no sender/recipient check, refuting the claim as
stated. -/
theorem getMessageById_no_scope_check :
    (getMessageById [msg0] 3 10 99).1 = some msg0
    ∧ (3 : OId) ≠ msg0.sender ∧ (3 : OId) ≠ msg0.recipient := by
  refine ⟨by decide, by decide, by decide⟩

/-- C7 (amended): marking a message read does require the actor to be
the recipient — a non-recipient gets `Forbidden` with the store
untouched, a recipient succeeds — but the single-message read returns
any existing message to any authenticated actor, and the by-child
listing returns exactly the messages of the requested child regardless
of who asks. -/
theorem message_read_scope :
    ∀ (msgs : List Message) (actorId id childId : OId) (now page limit : Nat)
      (m : Message),
      (findMsg msgs id = some m → m.recipient ≠ actorId →
        markAsRead msgs actorId id now = (MarkReadResult.forbidden, msgs))
      ∧ (findMsg msgs id = some m → m.recipient = actorId →
        (markAsRead msgs actorId id now).1 = MarkReadResult.ok)
      ∧ (findMsg msgs id = some m →
        (getMessageById msgs actorId id now).1 ≠ none)
      ∧ (∀ r ∈ getMessagesByChild msgs childId page limit, r.child = childId) := by
  intro msgs actorId id childId now page limit m
  refine ⟨?_, ?_, ?_, ?_⟩
  · intro hfind hrec
    simp [markAsRead, hfind, hrec]
  · intro hfind hrec
    simp [markAsRead, hfind, hrec]
  · intro hfind
    by_cases hbr : actorId = m.recipient ∧ m.isRead = false
    · simp [getMessageById, hfind, hbr]
    · simp [getMessageById, hfind, hbr]
  · intro r hr
    have h2 := List.take_subset _ _ hr
    have h3 := List.drop_subset _ _ h2
    have h4 := (mem_sortBy _ _ _).mp h3
    have h5 := (List.mem_filter.mp h4).2
    simpa using h5

/-- A second message about child 9, recipient 2. -/
def msg1 : Message :=
  { mid := 11, sender := 2, recipient := 1, child := 9, subject := "t"
    content := "d", isRead := false, readAt := none, createdAt := 1 }

/-- Witness for C7's amended theorem at concrete messages: the
non-recipient 3 is refused the mark-read, recipient 2 succeeds, the
unscoped single read returns a value to actor 3, and the by-child
listing entries all carry child 9. -/
theorem message_read_scope_witness :
    markAsRead [msg0] 3 10 99 = (MarkReadResult.forbidden, [msg0])
    ∧ (markAsRead [msg0] 2 10 99).1 = MarkReadResult.ok
    ∧ (getMessageById [msg0] 3 10 99).1 ≠ none
    ∧ msg1.child = 9 :=
  ⟨(message_read_scope [msg0] 3 10 9 99 1 20 msg0).1 rfl (by decide),
   (message_read_scope [msg0] 2 10 9 99 1 20 msg0).2.1 rfl rfl,
   (message_read_scope [msg0] 3 10 9 99 1 20 msg0).2.2.1 rfl,
   (message_read_scope [msg0, msg1] 2 11 9 99 1 20 msg1).2.2.2 msg1 (by decide)⟩

/-! ## C5: financial report semantics -/

/-- The category breakdown produced by the `$sort: { total: -1 }` stage
is descending in total. -/
theorem categoryBreakdown_sorted :
    ∀ txs : List Tx,
      (categoryBreakdownOf txs).Pairwise (fun a b => b.total ≤ a.total) := by
  intro txs
  have h := pairwise_sortBy (fun a b : CategoryRow => decide (b.total ≤ a.total))
    (fun a b hab => by
      simp only [decide_eq_false_iff_not] at hab
      simpa using le_of_not_le hab)
    (fun a b c hab hbc => by
      simp only [decide_eq_true_eq] at hab hbc ⊢
      exact le_trans hbc hab)
    ((firstKeys (fun t => (t.category, t.ttype)) txs).map fun k =>
      let grp := txs.filter fun t => t.category = k.1 && t.ttype = k.2
      { category := k.1, ctype := k.2
        total := (grp.map fun t => t.amount).sum
        count := grp.length })
  exact List.Pairwise.imp (fun hxy => of_decide_eq_true hxy) h

/-- Every entry of the final period report satisfies
`netIncome = income - expenses` (put there by the `$addFields` stage
and untouched by the final sort). -/
theorem periodReport_net :
    ∀ (entries : List PeriodEntry) (e : PeriodEntry),
      e ∈ sortBy (fun a b => strLe a.period b.period) (addNetIncome entries) →
      e.netIncome = e.income - e.expenses := by
  intro entries e he
  have h1 := (mem_sortBy _ _ _).mp he
  simp only [addNetIncome] at h1
  rcases List.mem_map.mp h1 with ⟨g, _, rfl⟩
  rfl

/-- Summing `netIncome` over entries that each satisfy
`netIncome = income - expenses` gives exactly the difference of the
summed incomes and summed expenses. -/
theorem sum_net_eq_sub :
    ∀ l : List PeriodEntry,
      (∀ e ∈ l, e.netIncome = e.income - e.expenses) →
      (l.map fun e => e.netIncome).sum =
        (l.map fun e => e.income).sum - (l.map fun e => e.expenses).sum := by
  intro l h
  induction l with
  | nil => simp
  | cons a rest ih =>
      have ha := h a (List.mem_cons_self a rest)
      have hr := ih (fun e he => h e (List.mem_cons_of_mem a he))
      simp only [List.map_cons, List.sum_cons, ha, hr]
      ring

/-- C5: the financial report (i) depends only on the approved
transactions inside the optional date range — filtering the input down
to the `$match` set does not change the report; (ii) returns its
category breakdown sorted descending by total amount; and (iii) has a
summary satisfying `netIncome = totalIncome - totalExpenses` exactly. -/
theorem getFinancialReport_spec :
    ∀ (txs : List Tx) (q : ReportQuery),
      getFinancialReport txs q = getFinancialReport (txs.filter (matchStage q)) q
      ∧ (getFinancialReport txs q).categoryBreakdown.Pairwise
          (fun a b => b.total ≤ a.total)
      ∧ (getFinancialReport txs q).netIncome =
          (getFinancialReport txs q).totalIncome -
            (getFinancialReport txs q).totalExpenses := by
  intro txs q
  refine ⟨?_, ?_, ?_⟩
  · unfold getFinancialReport
    rw [filter_idem]
  · exact categoryBreakdown_sorted (txs.filter (matchStage q))
  · exact sum_net_eq_sub _
      (fun e he => periodReport_net
        (groupByPeriod (groupPeriodType q.groupBy (txs.filter (matchStage q)))) e he)
